import Mathlib

/-!
Shallow embedding of the retrieval-augmented LLM gateway
(src/mini-litellm-groq.py, src/mini-litellm-ollama.py and the
plain variants in src/litellmmini/).

The gateway code builds Python dicts for its wire payloads; those are
modelled as `Json` values or as structures whose fields match the dict
keys one to one.  Effects are made explicit:
  - the vector-store lookup performed for each collection
    (`db.as_retriever(...).get_relevant_documents(query)`) may raise, so it
    is a parameter `query_fn : α → Except Unit (List String)` returning the
    ranked passage contents (exceptions propagate, as in the Python code,
    which has no try/except);
  - `os.urandom(12).hex()` and `int(time.time())` are injected as
    an id supply and a clock value, one fresh id drawn per call;
  - the HTTP layer is modelled by the outcome record of a handler run:
    the backend payload built, the number of backend POSTs issued on that
    path, and the HTTP status Flask produces for the returned value.
-/

namespace RaggedAGI

/-- JSON values, standing for the Python dicts/values the gateway handles. -/
inductive Json where
  | str : String → Json
  | num : Int → Json
  | bool : Bool → Json
  | null : Json
  | arr : List Json → Json
  | obj : List (String × Json) → Json

/-- Key lookup in a JSON object, as Python dict indexing (first match). -/
def Json.field : Json → String → Option Json
  | .obj kvs, k => kvs.lookup k
  | _, _ => none

/-- Array indexing into a JSON array. -/
def Json.idx : Json → Nat → Option Json
  | .arr xs, n => xs.get? n
  | _, _ => none

/-- One chat message, a dict with keys role and content. -/
structure ChatMessage where
  role : String
  content : String
deriving DecidableEq

/-- The parsed inbound JSON body.  messages and stream are optional keys
(the code reads them with data.get and a default); all remaining
top-level keys (sampling parameters and anything else) are kept as an
association list of JSON values. -/
structure RequestBody where
  messages : Option (List ChatMessage)
  stream : Option Bool
  params : List (String × Json)

/-- mini-litellm-groq.py line 44 / mini-litellm-ollama.py line 36:
user_query is next(msg content for msg in messages if role == user, ""),
i.e. the FIRST message with role user, defaulting to the empty string. -/
def extract_user_query (messages : List ChatMessage) : String :=
  ((messages.find? (fun m => m.role == "user")).map (fun m => m.content)).getD ""

/-- The synthetic system message prepended by both gateways. -/
def system_message (ragContext : String) : ChatMessage :=
  { role := "system"
  , content := "Use the following context to answer the user\x27s question:\n\n" ++ ragContext }

/-- The per-collection loop body results accumulated by get_rag_context:
contexts.extend(doc.page_content for doc in docs) for each collection in
order; any exception raised by a lookup propagates (there is no
try/except in the Python code). -/
def gather_contexts {α : Type} (query_fn : α → Except Unit (List String)) :
    List α → Except Unit (List String)
  | [] => Except.ok []
  | c :: rest =>
      match query_fn c with
      | Except.error e => Except.error e
      | Except.ok docs =>
          match gather_contexts query_fn rest with
          | Except.error e => Except.error e
          | Except.ok tail => Except.ok (docs ++ tail)

/-- get_rag_context (both gateway files): gathers the passage contents of
every collection in enumeration order and joins them with a blank line. -/
def get_rag_context {α : Type} (collections : List α)
    (query_fn : α → Except Unit (List String)) : Except Unit String :=
  (gather_contexts query_fn collections).map (fun cs => String.intercalate "\n\n" cs)

/-- The whitelist the groq gateway iterates over when copying optional
parameters into the backend payload (mini-litellm-groq.py line 61). -/
def OPTIONAL_PARAMS : List String :=
  ["temperature", "max_tokens", "top_p", "frequency_penalty", "presence_penalty"]

/-- mini-litellm-groq.py lines 61-63: for each whitelisted key present in
the request dict, copy it (in loop order) into the payload dict. -/
def groq_optional_params (params : List (String × Json)) : List (String × Json) :=
  OPTIONAL_PARAMS.filterMap (fun p => (params.lookup p).map (fun v => (p, v)))

/-- The payload dict POSTed to the groq backend: model, messages, stream,
plus the copied optional parameters. -/
structure GroqPayload where
  model : String
  messages : List ChatMessage
  stream : Bool
  extra : List (String × Json)

/-- The payload dict POSTed to the ollama backend: model, prompt, stream. -/
structure OllamaPayload where
  model : String
  prompt : String
  stream : Bool
deriving DecidableEq

/-- Observable outcome of one successful run of the groq handler:
the query handed to get_rag_context, the context it returned, the payload
of the single backend POST, the number of backend POSTs issued, and the
HTTP status Flask produces on this path. -/
structure GroqOutcome where
  ragQuery : String
  ragContext : String
  payload : GroqPayload
  backendCalls : Nat
  status : Nat

/-- chat_completions of mini-litellm-groq.py (lines 36-68), for a parsed
JSON body.  Reads stream and messages with defaults, extracts the first
user message as the retrieval query, retrieves context (exceptions
propagate), builds the payload with the synthetic system message
prepended to the original messages, copies whitelisted optional
parameters, and issues exactly one backend POST; Flask returns the
backend JSON with status 200. -/
def groq_chat_completions {α : Type} (collections : List α)
    (query_fn : String → α → Except Unit (List String))
    (model : String) (data : RequestBody) : Except Unit GroqOutcome :=
  match get_rag_context collections
      (query_fn (extract_user_query (data.messages.getD []))) with
  | Except.error e => Except.error e
  | Except.ok rag_context => Except.ok
      { ragQuery := extract_user_query (data.messages.getD [])
      , ragContext := rag_context
      , payload :=
          { model := model
          , messages := system_message rag_context :: data.messages.getD []
          , stream := data.stream.getD false
          , extra := groq_optional_params data.params }
      , backendCalls := 1
      , status := 200 }

/-- Observable outcome of one successful run of the ollama handler:
also records the augmented message list built before flattening. -/
structure OllamaOutcome where
  ragQuery : String
  ragContext : String
  augmented : List ChatMessage
  payload : OllamaPayload
  backendCalls : Nat
  status : Nat

/-- mini-litellm-ollama.py lines 46-47 and litellmmini variant lines 18-19:
flatten a message list to one prompt, one "role: content" line per
message, joined by single newlines. -/
def flatten_prompt (messages : List ChatMessage) : String :=
  String.intercalate "\n" (messages.map (fun m => m.role ++ ": " ++ m.content))

/-- chat_completions of mini-litellm-ollama.py (lines 32-58): reads
messages and stream with defaults, extracts the first user message as the
retrieval query, retrieves context (exceptions propagate), prepends the
synthetic system message, flattens the augmented list into the prompt,
and issues exactly one backend POST; Flask status 200 on this path. -/
def ollama_chat_completions {α : Type} (collections : List α)
    (query_fn : String → α → Except Unit (List String))
    (model : String) (data : RequestBody) : Except Unit OllamaOutcome :=
  match get_rag_context collections
      (query_fn (extract_user_query (data.messages.getD []))) with
  | Except.error e => Except.error e
  | Except.ok rag_context => Except.ok
      { ragQuery := extract_user_query (data.messages.getD [])
      , ragContext := rag_context
      , augmented := system_message rag_context :: data.messages.getD []
      , payload :=
          { model := model
          , prompt := flatten_prompt (system_message rag_context :: data.messages.getD [])
          , stream := data.stream.getD false }
      , backendCalls := 1
      , status := 200 }

/-- chat_completions of src/litellmmini/mini-litellm-ollama.py (the
translating variant without retrieval): the payload prompt is the
flattening of the request messages as given. -/
def mini_ollama_chat_completions (model : String) (data : RequestBody) : OllamaPayload :=
  { model := model
  , prompt := flatten_prompt (data.messages.getD [])
  , stream := data.stream.getD false }

/-- One parsed line of the ollama streaming response; the response and
done keys may be absent (the code reads them with chunk.get). -/
structure OllamaChunk where
  response : Option String
  done : Option Bool
deriving DecidableEq

/-- The parsed ollama non-streaming response body; the response key may
be absent. -/
structure OllamaResponse where
  response : Option String
deriving DecidableEq

/-- format_chunk of mini-litellm-ollama.py (lines 78-91): the canonical
chunk dict.  idsuffix stands for the os.urandom(12).hex() drawn by this
call; created for int(time.time()). -/
def format_chunk (idsuffix : String) (created : Nat) (model : String)
    (chunk : OllamaChunk) : Json :=
  Json.obj
    [ ("id", Json.str ("chatcmpl-" ++ idsuffix))
    , ("object", Json.str "chat.completion.chunk")
    , ("created", Json.num created)
    , ("model", Json.str model)
    , ("choices", Json.arr
        [ Json.obj
            [ ("index", Json.num 0)
            , ("delta", Json.obj [("content", Json.str (chunk.response.getD ""))])
            , ("finish_reason",
                if chunk.done.getD false then Json.str "stop" else Json.null) ] ]) ]

/-- format_response of mini-litellm-ollama.py (lines 93-112): the
canonical completion dict.  Indexing ollama_response with a missing
response key raises KeyError, modelled as Except.error. -/
def format_response (idsuffix : String) (created : Nat) (model : String)
    (resp : OllamaResponse) : Except Unit Json :=
  match resp.response with
  | none => Except.error ()
  | some content => Except.ok (Json.obj
      [ ("id", Json.str ("chatcmpl-" ++ idsuffix))
      , ("object", Json.str "chat.completion")
      , ("created", Json.num created)
      , ("model", Json.str model)
      , ("choices", Json.arr
          [ Json.obj
              [ ("index", Json.num 0)
              , ("message", Json.obj
                  [("role", Json.str "assistant"), ("content", Json.str content)])
              , ("finish_reason", Json.str "stop") ] ])
      , ("usage", Json.obj
          [ ("prompt_tokens", Json.num (-1))
          , ("completion_tokens", Json.num (-1))
          , ("total_tokens", Json.num (-1)) ]) ])

/-- stream_response of mini-litellm-ollama.py, chunk objects: one
format_chunk call per nonempty backend line (lines is the list of parsed
nonempty lines, in arrival order); each call draws a fresh id from the
supply idgen, indexed by iteration. -/
def ollama_stream_chunks (idgen : Nat → String) (created : Nat) (model : String)
    (lines : List OllamaChunk) : List Json :=
  lines.enum.map (fun p => format_chunk (idgen p.1) created model p.2)

/-- stream_response of mini-litellm-ollama.py (lines 60-70), emitted
frames: one data frame per chunk, serialized by dumps (json.dumps), then
the terminal sentinel frame, emitted unconditionally after the backend
stream ends, done flag or not. -/
def ollama_stream_frames (dumps : Json → String) (idgen : Nat → String)
    (created : Nat) (model : String) (lines : List OllamaChunk) : List String :=
  ((ollama_stream_chunks idgen created model lines).map
      (fun j => "data: " ++ dumps j ++ "\n\n")) ++ ["data: [DONE]\n\n"]

/-- stream_response of mini-litellm-groq.py (lines 70-77), emitted
frames: every nonempty backend line is relayed verbatim with a blank
line appended; nothing is added when the stream ends. -/
def groq_stream_frames (lines : List String) : List String :=
  (lines.filter (fun l => l != "")).map (fun l => l ++ "\n\n")

/-! ### Helper lemmas -/

/-- Python next(x for x in l if p(x), default) returns the first match,
which is the head of the filtered list. -/
lemma find?_eq_head?_filter {α : Type} (p : α → Bool) (l : List α) :
    l.find? p = (l.filter p).head? := by
  induction l with
  | nil => rfl
  | cons x xs ih =>
    by_cases h : p x
    · rw [List.find?_cons_of_pos _ h, List.filter_cons_of_pos h]
      rfl
    · rw [List.find?_cons_of_neg _ h, List.filter_cons_of_neg h, ih]

/-- Appending the same suffix to two strings preserves distinctness. -/
lemma string_append_right_cancel {a b : String} (c : String)
    (h : a ++ c = b ++ c) : a = b := by
  apply String.ext
  have h2 := congrArg String.data h
  simp only [String.data_append] at h2
  exact List.append_cancel_right h2

/-- Prepending the same prefix to two strings preserves distinctness. -/
lemma string_append_left_cancel {a b : String} (c : String)
    (h : c ++ a = c ++ b) : a = b := by
  apply String.ext
  have h2 := congrArg String.data h
  simp only [String.data_append] at h2
  exact List.append_cancel_left h2

/-- Inversion of a successful groq handler run. -/
lemma groq_run_ok {α : Type} {collections : List α}
    {query_fn : String → α → Except Unit (List String)} {model : String}
    {data : RequestBody} {og : GroqOutcome}
    (h : groq_chat_completions collections query_fn model data = Except.ok og) :
    ∃ ctx, get_rag_context collections
        (query_fn (extract_user_query (data.messages.getD []))) = Except.ok ctx
      ∧ og = { ragQuery := extract_user_query (data.messages.getD [])
             , ragContext := ctx
             , payload :=
                 { model := model
                 , messages := system_message ctx :: data.messages.getD []
                 , stream := data.stream.getD false
                 , extra := groq_optional_params data.params }
             , backendCalls := 1
             , status := 200 } := by
  unfold groq_chat_completions at h
  split at h
  · exact Except.noConfusion h
  · next ctx hr =>
    injection h with h2
    exact ⟨ctx, hr, h2.symm⟩

/-- Inversion of a successful ollama handler run. -/
lemma ollama_run_ok {α : Type} {collections : List α}
    {query_fn : String → α → Except Unit (List String)} {model : String}
    {data : RequestBody} {oo : OllamaOutcome}
    (h : ollama_chat_completions collections query_fn model data = Except.ok oo) :
    ∃ ctx, get_rag_context collections
        (query_fn (extract_user_query (data.messages.getD []))) = Except.ok ctx
      ∧ oo = { ragQuery := extract_user_query (data.messages.getD [])
             , ragContext := ctx
             , augmented := system_message ctx :: data.messages.getD []
             , payload :=
                 { model := model
                 , prompt := flatten_prompt (system_message ctx :: data.messages.getD [])
                 , stream := data.stream.getD false }
             , backendCalls := 1
             , status := 200 } := by
  unfold ollama_chat_completions at h
  split at h
  · exact Except.noConfusion h
  · next ctx hr =>
    injection h with h2
    exact ⟨ctx, hr, h2.symm⟩

/-- If the lookup of some collection raises, the whole gather raises. -/
lemma gather_contexts_error {α : Type} (query_fn : α → Except Unit (List String))
    (l : List α) (c : α) (hc : c ∈ l) (he : query_fn c = Except.error ()) :
    gather_contexts query_fn l = Except.error () := by
  induction l with
  | nil => cases hc
  | cons x xs ih =>
    rcases List.mem_cons.mp hc with h | h
    · subst h
      simp [gather_contexts, he]
    · cases hx : query_fn x with
      | error e => simp [gather_contexts, hx]
      | ok docs => simp [gather_contexts, hx, ih h]

/-- If the lookup of every collection succeeds, gather returns all passages in
collection-enumeration order then rank order. -/
lemma gather_contexts_ok {α : Type} (query_fn : α → Except Unit (List String))
    (ps : α → List String) (l : List α)
    (h : ∀ c ∈ l, query_fn c = Except.ok (ps c)) :
    gather_contexts query_fn l = Except.ok (l.map ps).flatten := by
  induction l with
  | nil => rfl
  | cons x xs ih =>
    have hx := h x (List.mem_cons_self x xs)
    have hrest := ih (fun c hc => h c (List.mem_cons_of_mem x hc))
    simp [gather_contexts, hx, hrest]

/-! ### Claim theorems -/

/-- C1 counterexample: for the conversation user "a", assistant "b",
user "c", the query handed to the retrieval aggregator is "a" (the first
user message), not "c" (the last user message) as the claim states. -/
theorem C1_counterexample :
    (groq_chat_completions ([] : List String) (fun _ _ => Except.ok [])
        "llama-3.1-8b-instant"
        { messages := some [⟨"user", "a"⟩, ⟨"assistant", "b"⟩, ⟨"user", "c"⟩]
        , stream := some false, params := [] }).map (fun o => o.ragQuery)
      = Except.ok "a"
    ∧ (ollama_chat_completions ([] : List String) (fun _ _ => Except.ok [])
        "qwen2:1.5b"
        { messages := some [⟨"user", "a"⟩, ⟨"assistant", "b"⟩, ⟨"user", "c"⟩]
        , stream := some false, params := [] }).map (fun o => o.ragQuery)
      = Except.ok "a"
    ∧ "a" ≠ "c" := by
  refine ⟨rfl, rfl, ?_⟩
  decide

/-- C1 (amended): for every inbound request, the retrieval query passed
to the retrieval aggregator is the content of the FIRST message whose
role is user; if no message has role user, the query is the empty
string.  Holds for both gateway variants. -/
theorem C1_first_user_query {α : Type} (collections : List α)
    (query_fn : String → α → Except Unit (List String)) (model : String)
    (data : RequestBody) (og : GroqOutcome) (oo : OllamaOutcome)
    (hg : groq_chat_completions collections query_fn model data = Except.ok og)
    (ho : ollama_chat_completions collections query_fn model data = Except.ok oo) :
    og.ragQuery = ((((data.messages.getD []).filter
        (fun m => m.role == "user")).head?).map (fun m => m.content)).getD ""
    ∧ oo.ragQuery = ((((data.messages.getD []).filter
        (fun m => m.role == "user")).head?).map (fun m => m.content)).getD "" := by
  obtain ⟨ctx, -, hog⟩ := groq_run_ok hg
  obtain ⟨ctx2, -, hoo⟩ := ollama_run_ok ho
  subst hog
  subst hoo
  refine ⟨?_, ?_⟩ <;>
  · show extract_user_query (data.messages.getD []) = _
    unfold extract_user_query
    rw [find?_eq_head?_filter]

/-- C1 witness: a concrete run of both handlers establishing the amended
property at the conversation user "a", assistant "b", user "c". -/
theorem C1_witness :
    ({ ragQuery := "a", ragContext := ""
     , payload :=
         { model := "m"
         , messages := [system_message "",
             ⟨"user", "a"⟩, ⟨"assistant", "b"⟩, ⟨"user", "c"⟩]
         , stream := false, extra := [] }
     , backendCalls := 1, status := 200 } : GroqOutcome).ragQuery
      = (((([⟨"user", "a"⟩, ⟨"assistant", "b"⟩, ⟨"user", "c"⟩] :
            List ChatMessage).filter (fun m => m.role == "user")).head?).map
          (fun m => m.content)).getD ""
    ∧ ({ ragQuery := "a", ragContext := ""
       , augmented := [system_message "",
           ⟨"user", "a"⟩, ⟨"assistant", "b"⟩, ⟨"user", "c"⟩]
       , payload :=
           { model := "m"
           , prompt := flatten_prompt [system_message "",
               ⟨"user", "a"⟩, ⟨"assistant", "b"⟩, ⟨"user", "c"⟩]
           , stream := false }
       , backendCalls := 1, status := 200 } : OllamaOutcome).ragQuery
      = (((([⟨"user", "a"⟩, ⟨"assistant", "b"⟩, ⟨"user", "c"⟩] :
            List ChatMessage).filter (fun m => m.role == "user")).head?).map
          (fun m => m.content)).getD "" :=
  C1_first_user_query ([] : List String) (fun _ _ => Except.ok []) "m"
    { messages := some [⟨"user", "a"⟩, ⟨"assistant", "b"⟩, ⟨"user", "c"⟩]
    , stream := some false, params := [] } _ _ rfl rfl

/-- C2 counterexample: with collections A and B where the lookup for A
raises and the lookup for B returns passages b1, b2, the overall
retrieval raises instead of returning the passages of B — there is no
per-collection failure isolation in get_rag_context. -/
theorem C2_counterexample :
    get_rag_context ["A", "B"]
        (fun c => if c == "A" then Except.error () else Except.ok ["b1", "b2"])
      = Except.error ()
    ∧ get_rag_context ["A", "B"]
        (fun c => if c == "A" then Except.error () else Except.ok ["b1", "b2"])
      ≠ Except.ok "b1\n\nb2" := by
  refine ⟨rfl, ?_⟩
  intro h
  rw [show get_rag_context ["A", "B"]
        (fun c => if c == "A" then Except.error () else Except.ok ["b1", "b2"])
      = Except.error () from rfl] at h
  exact Except.noConfusion h

/-- C2 (amended): a per-collection lookup failure is NOT isolated: if any
top-k lookup of any collection raises, the exception propagates and the whole
retrieval fails, regardless of other collections succeeding. -/
theorem C2_failure_propagates {α : Type} (collections : List α)
    (query_fn : α → Except Unit (List String)) (c : α)
    (hc : c ∈ collections) (he : query_fn c = Except.error ()) :
    get_rag_context collections query_fn = Except.error () := by
  unfold get_rag_context
  rw [gather_contexts_error query_fn collections c hc he]
  rfl

/-- C2 witness: the amended propagation property at the concrete two
collection input of the counterexample scenario. -/
theorem C2_witness :
    get_rag_context ["A", "B"]
        (fun c => if c == "A" then Except.error () else Except.ok ["b1", "b2"])
      = Except.error () :=
  C2_failure_propagates ["A", "B"]
    (fun c => if c == "A" then Except.error () else Except.ok ["b1", "b2"])
    "A" (by decide) rfl

/-- C8: when every collection lookup succeeds, the aggregated context is
the concatenation of the passage contents of all collections, in
collection-enumeration order then passage-rank order, joined by one
blank line; with zero collections it is the empty string. -/
theorem C8_context_concatenation {α : Type} (collections : List α)
    (query_fn : α → Except Unit (List String)) (ps : α → List String)
    (h : ∀ c ∈ collections, query_fn c = Except.ok (ps c)) :
    get_rag_context collections query_fn
      = Except.ok (String.intercalate "\n\n" (collections.map ps).flatten)
    ∧ get_rag_context ([] : List α) query_fn = Except.ok "" := by
  constructor
  · unfold get_rag_context
    rw [gather_contexts_ok query_fn ps collections h]
    rfl
  · rfl

/-- C8 witness: two collections with two ranked passages each yield the
four passages in order, blank-line separated. -/
theorem C8_witness :
    get_rag_context ["A", "B"]
        (fun c => Except.ok (if c == "A" then ["a1", "a2"] else ["b1", "b2"]))
      = Except.ok "a1\n\na2\n\nb1\n\nb2"
    ∧ get_rag_context ([] : List String)
        (fun c => Except.ok (if c == "A" then ["a1", "a2"] else ["b1", "b2"]))
      = Except.ok "" := by
  have h := C8_context_concatenation ["A", "B"]
    (fun c => Except.ok (if c == "A" then ["a1", "a2"] else ["b1", "b2"]))
    (fun c => if c == "A" then ["a1", "a2"] else ["b1", "b2"])
    (by intro c hc; rfl)
  exact ⟨h.1.trans (by rfl), h.2⟩

/-- C4 counterexample: a body without the messages key is treated as an
empty message list; the groq handler returns status 200 (not 400) and
issues one backend call (not zero), and so does the ollama handler. -/
theorem C4_counterexample :
    (groq_chat_completions ([] : List String) (fun _ _ => Except.ok []) "m"
        { messages := none, stream := some false, params := [] }).map
        (fun o => (o.status, o.backendCalls))
      = Except.ok (200, 1)
    ∧ (ollama_chat_completions ([] : List String) (fun _ _ => Except.ok []) "m"
        { messages := none, stream := some false, params := [] }).map
        (fun o => (o.status, o.backendCalls))
      = Except.ok (200, 1)
    ∧ (200 : Nat) ≠ 400 ∧ (1 : Nat) ≠ 0 := by
  refine ⟨rfl, rfl, ?_, ?_⟩ <;> decide

/-- C4 (amended): a request body lacking the messages key is read as an
empty message list and the request proceeds: both handlers make exactly
one backend call, respond with HTTP 200, and the backend payload carries
just the synthetic system message. -/
theorem C4_missing_messages_proceeds {α : Type} (collections : List α)
    (query_fn : String → α → Except Unit (List String)) (model : String)
    (stream : Option Bool) (params : List (String × Json))
    (og : GroqOutcome) (oo : OllamaOutcome)
    (hg : groq_chat_completions collections query_fn model
        { messages := none, stream := stream, params := params } = Except.ok og)
    (ho : ollama_chat_completions collections query_fn model
        { messages := none, stream := stream, params := params } = Except.ok oo) :
    og.status = 200 ∧ og.backendCalls = 1
    ∧ og.payload.messages = [system_message og.ragContext]
    ∧ oo.status = 200 ∧ oo.backendCalls = 1
    ∧ oo.augmented = [system_message oo.ragContext] := by
  obtain ⟨ctx, -, hog⟩ := groq_run_ok hg
  obtain ⟨ctx2, -, hoo⟩ := ollama_run_ok ho
  subst hog
  subst hoo
  exact ⟨rfl, rfl, rfl, rfl, rfl, rfl⟩

/-- C4 witness: the amended property at a concrete run with no messages
key and zero collections. -/
theorem C4_witness :
    ({ ragQuery := "", ragContext := ""
     , payload := { model := "m", messages := [system_message ""]
                  , stream := false, extra := [] }
     , backendCalls := 1, status := 200 } : GroqOutcome).status = 200
    ∧ ({ ragQuery := "", ragContext := ""
       , payload := { model := "m", messages := [system_message ""]
                    , stream := false, extra := [] }
       , backendCalls := 1, status := 200 } : GroqOutcome).backendCalls = 1
    ∧ ({ ragQuery := "", ragContext := ""
       , payload := { model := "m", messages := [system_message ""]
                    , stream := false, extra := [] }
       , backendCalls := 1, status := 200 } : GroqOutcome).payload.messages
        = [system_message ""]
    ∧ ({ ragQuery := "", ragContext := ""
       , augmented := [system_message ""]
       , payload := { model := "m", prompt := flatten_prompt [system_message ""]
                    , stream := false }
       , backendCalls := 1, status := 200 } : OllamaOutcome).status = 200
    ∧ ({ ragQuery := "", ragContext := ""
       , augmented := [system_message ""]
       , payload := { model := "m", prompt := flatten_prompt [system_message ""]
                    , stream := false }
       , backendCalls := 1, status := 200 } : OllamaOutcome).backendCalls = 1
    ∧ ({ ragQuery := "", ragContext := ""
       , augmented := [system_message ""]
       , payload := { model := "m", prompt := flatten_prompt [system_message ""]
                    , stream := false }
       , backendCalls := 1, status := 200 } : OllamaOutcome).augmented
        = [system_message ""] :=
  C4_missing_messages_proceeds ([] : List String) (fun _ _ => Except.ok [])
    "m" (some false) [] _ _ rfl rfl

/-- C5: for every request that reaches the backend, the message sequence
handed to the backend is the synthetic system message carrying the
retrieved context, followed by the original messages unchanged; the
translating variant flattens exactly that augmented sequence. -/
theorem C5_system_message_first {α : Type} (collections : List α)
    (query_fn : String → α → Except Unit (List String)) (model : String)
    (data : RequestBody) (msgs : List ChatMessage)
    (og : GroqOutcome) (oo : OllamaOutcome)
    (hm : data.messages = some msgs)
    (hg : groq_chat_completions collections query_fn model data = Except.ok og)
    (ho : ollama_chat_completions collections query_fn model data = Except.ok oo) :
    og.payload.messages = system_message og.ragContext :: msgs
    ∧ oo.augmented = system_message oo.ragContext :: msgs
    ∧ oo.payload.prompt = flatten_prompt (system_message oo.ragContext :: msgs) := by
  obtain ⟨ctx, -, hog⟩ := groq_run_ok hg
  obtain ⟨ctx2, -, hoo⟩ := ollama_run_ok ho
  subst hog
  subst hoo
  rw [hm]
  exact ⟨rfl, rfl, rfl⟩

/-- C5 witness: the end-to-end example of the spec: one user message
"What is X?" with one collection returning "X is a widget." gives the
backend the system context message followed by the user message. -/
theorem C5_witness :
    ({ ragQuery := "What is X?", ragContext := "X is a widget."
     , payload := { model := "m"
                  , messages := [system_message "X is a widget.",
                      ⟨"user", "What is X?"⟩]
                  , stream := false, extra := [] }
     , backendCalls := 1, status := 200 } : GroqOutcome).payload.messages
      = system_message "X is a widget." :: [⟨"user", "What is X?"⟩]
    ∧ ({ ragQuery := "What is X?", ragContext := "X is a widget."
       , augmented := [system_message "X is a widget.", ⟨"user", "What is X?"⟩]
       , payload := { model := "m"
                    , prompt := flatten_prompt [system_message "X is a widget.",
                        ⟨"user", "What is X?"⟩]
                    , stream := false }
       , backendCalls := 1, status := 200 } : OllamaOutcome).augmented
      = system_message "X is a widget." :: [⟨"user", "What is X?"⟩]
    ∧ ({ ragQuery := "What is X?", ragContext := "X is a widget."
       , augmented := [system_message "X is a widget.", ⟨"user", "What is X?"⟩]
       , payload := { model := "m"
                    , prompt := flatten_prompt [system_message "X is a widget.",
                        ⟨"user", "What is X?"⟩]
                    , stream := false }
       , backendCalls := 1, status := 200 } : OllamaOutcome).payload.prompt
      = flatten_prompt (system_message "X is a widget." ::
          [⟨"user", "What is X?"⟩]) := by
  have h := C5_system_message_first ["col1"]
    (fun _ _ => Except.ok ["X is a widget."]) "m"
    { messages := some [⟨"user", "What is X?"⟩]
    , stream := some false, params := [] }
    [⟨"user", "What is X?"⟩] _ _ rfl rfl rfl
  exact h

/-- C9 counterexample: a request carrying the unrecognized sampling
parameter top_k reaches the groq backend with an empty extra-parameter
set — the parameter is dropped, not passed through; the ollama backend
payload carries no sampling parameters at all, even recognized ones. -/
theorem C9_counterexample :
    (groq_chat_completions ([] : List String) (fun _ _ => Except.ok []) "m"
        { messages := some [⟨"user", "q"⟩], stream := some false
        , params := [("top_k", Json.num 40)] }).map (fun o => o.payload.extra)
      = Except.ok []
    ∧ ([] : List (String × Json)) ≠ [("top_k", Json.num 40)]
    ∧ (ollama_chat_completions ([] : List String) (fun _ _ => Except.ok []) "m"
        { messages := some [⟨"user", "q"⟩], stream := some false
        , params := [("temperature", Json.num 1)] }).map (fun o => o.payload)
      = Except.ok { model := "m"
                  , prompt := flatten_prompt [system_message "", ⟨"user", "q"⟩]
                  , stream := false } := by
  refine ⟨rfl, ?_, rfl⟩
  intro h
  exact List.noConfusion h

/-- C9 (amended): the groq gateway copies exactly the five whitelisted
sampling parameters that are present in the request, with their values
unmodified, into the backend payload; every other parameter is dropped.
A pair (k, v) is in the extra parameters of the payload iff k is whitelisted
and the request binds k to v. -/
theorem C9_whitelist_passthrough {α : Type} (collections : List α)
    (query_fn : String → α → Except Unit (List String)) (model : String)
    (data : RequestBody) (og : GroqOutcome)
    (hg : groq_chat_completions collections query_fn model data = Except.ok og) :
    og.payload.extra = groq_optional_params data.params
    ∧ ∀ k v, ((k, v) ∈ groq_optional_params data.params
        ↔ k ∈ OPTIONAL_PARAMS ∧ data.params.lookup k = some v) := by
  obtain ⟨ctx, -, hog⟩ := groq_run_ok hg
  subst hog
  refine ⟨rfl, fun k v => ?_⟩
  unfold groq_optional_params
  simp only [List.mem_filterMap, Option.map_eq_some']
  constructor
  · rintro ⟨p, hp, v2, hl, he⟩
    injection he with he1 he2
    subst he1
    subst he2
    exact ⟨hp, hl⟩
  · rintro ⟨hk, hl⟩
    exact ⟨k, hk, v, hl, rfl⟩

/-- C9 witness: concrete request with temperature (whitelisted, present),
top_p (whitelisted, absent) and top_k (not whitelisted): temperature is
passed through with its value, top_k is not. -/
theorem C9_witness :
    ({ ragQuery := "q", ragContext := ""
     , payload := { model := "m"
                  , messages := [system_message "", ⟨"user", "q"⟩]
                  , stream := false
                  , extra := groq_optional_params
                      [("top_k", Json.num 40), ("temperature", Json.num 1)] }
     , backendCalls := 1, status := 200 } : GroqOutcome).payload.extra
      = groq_optional_params [("top_k", Json.num 40), ("temperature", Json.num 1)]
    ∧ ∀ k v, ((k, v) ∈ groq_optional_params
          [("top_k", Json.num 40), ("temperature", Json.num 1)]
        ↔ k ∈ OPTIONAL_PARAMS
          ∧ [("top_k", Json.num 40), ("temperature", Json.num 1)].lookup k
              = some v) :=
  C9_whitelist_passthrough ([] : List String) (fun _ _ => Except.ok []) "m"
    { messages := some [⟨"user", "q"⟩], stream := some false
    , params := [("top_k", Json.num 40), ("temperature", Json.num 1)] }
    _ rfl

/-- C6: the translating variant flattens the ordered message
sequence into one prompt, one role-colon-content line per message joined
by single newlines; the three message conversation of the claim yields
exactly the literal three-line prompt. -/
theorem C6_prompt_flattening :
    (∀ (model : String) (data : RequestBody),
      (mini_ollama_chat_completions model data).prompt
        = String.intercalate "\n" ((data.messages.getD []).map
            (fun m => m.role ++ ": " ++ m.content)))
    ∧ (mini_ollama_chat_completions "qwen2-1_5b-instruct-q8_0:latest"
        { messages := some [⟨"user", "hi"⟩, ⟨"assistant", "hello"⟩,
            ⟨"user", "how are you"⟩]
        , stream := some false, params := [] }).prompt
      = "user: hi\nassistant: hello\nuser: how are you" :=
  ⟨fun _ _ => rfl, rfl⟩

/-- A serialized chunk frame is never the sentinel frame, provided the
serializer never outputs the bare sentinel text (json.dumps of a dict
always starts with a brace). -/
lemma sentinel_not_in_data_frames (dumps : Json → String)
    (hdumps : ∀ j, dumps j ≠ "[DONE]") (chunks : List Json) :
    List.count "data: [DONE]\n\n"
        (chunks.map (fun j => "data: " ++ dumps j ++ "\n\n")) = 0 := by
  rw [List.count_eq_zero]
  intro hmem
  obtain ⟨j, -, hj⟩ := List.mem_map.mp hmem
  have h2 : ("data: " ++ dumps j) ++ "\n\n" = ("data: " ++ "[DONE]") ++ "\n\n" := hj
  exact hdumps j (string_append_left_cancel "data: "
    (string_append_right_cancel "\n\n" h2))

/-- Relaying backend lines with a blank line appended preserves the
number of sentinel lines. -/
lemma count_groq_frames (l : List String) :
    List.count "data: [DONE]\n\n" (l.map (fun s => s ++ "\n\n"))
      = List.count "data: [DONE]" l := by
  induction l with
  | nil => rfl
  | cons x xs ih =>
    rw [List.map_cons, List.count_cons, List.count_cons, ih]
    by_cases hx : x = "data: [DONE]"
    · subst hx
      norm_num
      rfl
    · have hx2 : x ++ "\n\n" ≠ "data: [DONE]\n\n" := by
        intro h
        have h2 : x ++ "\n\n" = "data: [DONE]" ++ "\n\n" := h
        exact hx (string_append_right_cancel "\n\n" h2)
      simp [hx, hx2]

/-- C3 counterexample: for a passthrough (groq) streaming request whose
backend stream ends without a done line — a mid-stream disconnect — the
emitted frames contain the terminal sentinel zero times, not once: the
passthrough translator relays lines verbatim and never synthesizes the
sentinel itself. -/
theorem C3_counterexample :
    groq_stream_frames ["data: hello"] = ["data: hello\n\n"]
    ∧ List.count "data: [DONE]\n\n" (groq_stream_frames ["data: hello"]) = 0 :=
  ⟨rfl, rfl⟩

/-- C3 (amended): the translating (ollama) variant emits the terminal
sentinel frame exactly once and last, even when the backend stream ends
without a done-flagged chunk; the passthrough (groq) variant relays
backend lines verbatim, so its output contains exactly as many sentinel
frames as the backend stream itself contained sentinel lines. -/
theorem C3_sentinel_framing (dumps : Json → String) (idgen : Nat → String)
    (created : Nat) (model : String) (lines : List OllamaChunk)
    (glines : List String) (hdumps : ∀ j, dumps j ≠ "[DONE]") :
    List.count "data: [DONE]\n\n"
        (ollama_stream_frames dumps idgen created model lines) = 1
    ∧ (ollama_stream_frames dumps idgen created model lines).getLast?
        = some "data: [DONE]\n\n"
    ∧ List.count "data: [DONE]\n\n" (groq_stream_frames glines)
        = List.count "data: [DONE]" (glines.filter (fun l => l != "")) := by
  refine ⟨?_, ?_, ?_⟩
  · unfold ollama_stream_frames
    rw [List.count_append, sentinel_not_in_data_frames dumps hdumps]
    rfl
  · unfold ollama_stream_frames
    rw [List.getLast?_concat]
  · unfold groq_stream_frames
    exact count_groq_frames _

/-- C3 witness: a one-chunk backend stream with no done flag (mid-stream
disconnect) still ends with exactly one sentinel on the translating
variant; a passthrough stream that itself contains one sentinel line
relays exactly one. -/
theorem C3_witness :
    List.count "data: [DONE]\n\n"
        (ollama_stream_frames (fun _ => "x") (fun n => toString n) 0 "m"
          [⟨some "hi", some false⟩]) = 1
    ∧ (ollama_stream_frames (fun _ => "x") (fun n => toString n) 0 "m"
        [⟨some "hi", some false⟩]).getLast? = some "data: [DONE]\n\n"
    ∧ List.count "data: [DONE]\n\n"
        (groq_stream_frames ["data: a", "data: [DONE]"]) = 1 := by
  have h := C3_sentinel_framing (fun _ => "x") (fun n => toString n) 0 "m"
    [⟨some "hi", some false⟩] ["data: a", "data: [DONE]"]
    (by intro j; show ("x" : String) ≠ "[DONE]"; decide)
  exact ⟨h.1, h.2.1, h.2.2.trans (by rfl)⟩

/-- C7 counterexample: in one streaming request the two emitted chunk
envelopes carry two different completion ids (one id is drawn per chunk,
not one per request), and a chunk envelope has no usage key at all, so
it does not report usage counts of -1. -/
theorem C7_counterexample :
    (ollama_stream_chunks (fun n => toString n) 0 "m"
        [⟨some "a", some false⟩, ⟨some "", some true⟩]).map
        (fun j => Json.field j "id")
      = [some (Json.str "chatcmpl-0"), some (Json.str "chatcmpl-1")]
    ∧ Json.str "chatcmpl-0" ≠ Json.str "chatcmpl-1"
    ∧ Json.field (format_chunk "0" 0 "m" ⟨some "a", some false⟩) "usage"
        = none := by
  refine ⟨rfl, ?_, rfl⟩
  intro h
  injection h with h2
  exact absurd h2 (by decide)

/-- C7 (amended): every synthesized envelope carries a fresh completion
id drawn for that envelope (distinct draws give distinct ids, so chunks
of one stream differ in id); the done flag maps to finish_reason stop
when set and null otherwise; the non-streaming completion reports usage
counts of -1 for prompt, completion and total tokens, while streaming
chunk envelopes carry no usage key. -/
theorem C7_envelope_synthesis (s t : String) (created : Nat) (model : String)
    (chunk : OllamaChunk) (content : String) (hst : s ≠ t) :
    Json.field (format_chunk s created model chunk) "id"
      = some (Json.str ("chatcmpl-" ++ s))
    ∧ Json.field (format_chunk s created model chunk) "usage" = none
    ∧ (((Json.field (format_chunk s created model chunk) "choices").bind
          (fun a => Json.idx a 0)).bind (fun c => Json.field c "finish_reason"))
      = some (if chunk.done.getD false then Json.str "stop" else Json.null)
    ∧ Json.field (format_chunk s created model chunk) "id"
        ≠ Json.field (format_chunk t created model chunk) "id"
    ∧ (format_response s created model ⟨some content⟩).map
        (fun j => Json.field j "usage")
      = Except.ok (some (Json.obj [("prompt_tokens", Json.num (-1)),
          ("completion_tokens", Json.num (-1)), ("total_tokens", Json.num (-1))]))
    ∧ (format_response s created model ⟨some content⟩).map
        (fun j => ((Json.field j "choices").bind (fun a => Json.idx a 0)).bind
          (fun c => Json.field c "finish_reason"))
      = Except.ok (some (Json.str "stop")) := by
  refine ⟨rfl, rfl, rfl, ?_, rfl, rfl⟩
  intro h
  have h2 : some (Json.str ("chatcmpl-" ++ s))
      = some (Json.str ("chatcmpl-" ++ t)) := h
  injection h2 with h3
  injection h3 with h4
  exact hst (string_append_left_cancel "chatcmpl-" h4)

/-- C7 witness: the amended synthesis properties at two concrete distinct
id draws, a not-done chunk and a response body with content. -/
theorem C7_witness :
    Json.field (format_chunk "0" 7 "m" ⟨some "a", some false⟩) "id"
      = some (Json.str ("chatcmpl-" ++ "0"))
    ∧ Json.field (format_chunk "0" 7 "m" ⟨some "a", some false⟩) "usage" = none
    ∧ (((Json.field (format_chunk "0" 7 "m" ⟨some "a", some false⟩)
          "choices").bind (fun a => Json.idx a 0)).bind
          (fun c => Json.field c "finish_reason"))
      = some (if (some false : Option Bool).getD false then Json.str "stop"
          else Json.null)
    ∧ Json.field (format_chunk "0" 7 "m" ⟨some "a", some false⟩) "id"
        ≠ Json.field (format_chunk "1" 7 "m" ⟨some "a", some false⟩) "id"
    ∧ (format_response "0" 7 "m" ⟨some "ans"⟩).map
        (fun j => Json.field j "usage")
      = Except.ok (some (Json.obj [("prompt_tokens", Json.num (-1)),
          ("completion_tokens", Json.num (-1)), ("total_tokens", Json.num (-1))]))
    ∧ (format_response "0" 7 "m" ⟨some "ans"⟩).map
        (fun j => ((Json.field j "choices").bind (fun a => Json.idx a 0)).bind
          (fun c => Json.field c "finish_reason"))
      = Except.ok (some (Json.str "stop")) :=
  C7_envelope_synthesis "0" "1" 7 "m" ⟨some "a", some false⟩ "ans" (by decide)

/-- C10: in the translating variant, a non-streaming backend response
without the response key makes format_response raise (KeyError), while a
streaming chunk without the response key is still formatted, with an
empty delta content. -/
theorem C10_missing_response_key (s : String) (created : Nat) (model : String)
    (d : Option Bool) :
    format_response s created model ⟨none⟩ = Except.error ()
    ∧ ((((Json.field (format_chunk s created model ⟨none, d⟩) "choices").bind
          (fun a => Json.idx a 0)).bind (fun c => Json.field c "delta")).bind
          (fun dl => Json.field dl "content"))
      = some (Json.str "") :=
  ⟨rfl, rfl⟩

end RaggedAGI
